import Mathlib

/-!
Shallow embedding of the interactive-knob widget logic of the `iced_audio`
widget library (`src/native/knob.rs`), of its tick-mark / text-mark geometry
caches (`src/graphics/tick_marks/mod.rs`, `src/graphics/text_marks/mod.rs`),
and of the knob renderer's value-angle computation (`src/graphics/knob.rs`).

`f32` values are embedded as exact rationals (`ℚ`); the claims under study
are about control flow, clipping and ordering, not about floating-point
rounding.  Host-toolkit types (`iced` events, rectangles, scroll deltas,
mouse clicks) are embedded by small concrete structures carrying exactly the
data the widget code reads.
-/

namespace IcedAudio

/-- The constant `f32::EPSILON` = 2⁻²³, as an exact rational. -/
def f32_epsilon : ℚ := 1 / 2 ^ 23

/-- Modelled from the spec: the crate's `core::Normal` type (not under
`src/`), "normalized parameter values": an `f32` wrapper kept in
`[0.0, 1.0]`. -/
structure Normal where
  value : ℚ
deriving DecidableEq, Repr

/-- Modelled from the spec: `Normal::set_clipped` clips its argument into
the normalized range `[0.0, 1.0]` before storing it. -/
def Normal.set_clipped (x : ℚ) : Normal :=
  ⟨max (min x 1) 0⟩

/-- Method `Normal::as_f32` returns the raw value. -/
def Normal.as_f32 (n : Normal) : ℚ := n.value

/-- Modelled from the spec: `Normal::scale` multiplies the normalized value
by a scalar (used by the renderer as `normal.scale(angle_span)`). -/
def Normal.scale (n : Normal) (scalar : ℚ) : ℚ := n.value * scalar

/-- A `Normal` is valid when it lies in the normalized range `[0, 1]`. -/
def Normal.isValid (n : Normal) : Prop := 0 ≤ n.value ∧ n.value ≤ 1

instance (n : Normal) : Decidable n.isValid := by
  unfold Normal.isValid; exact inferInstance

/-- Modelled from the spec: the crate's `core::NormalParam` (not under
`src/`): a current value together with its default, both `Normal`. -/
structure NormalParam where
  value : Normal
  default : Normal
deriving DecidableEq, Repr

/-- Modelled from the spec: the crate's `native::SliderStatus` (not under
`src/`): whether the virtual slider was moved.  `Default::default()` is
`Unchanged`. -/
inductive SliderStatus where
  | Unchanged
  | Moved
deriving DecidableEq, Repr

/-- Method `SliderStatus::moved` marks the status as moved. -/
def SliderStatus.moved (_ : SliderStatus) : SliderStatus := .Moved

/-- Method `SliderStatus::was_moved`. -/
def SliderStatus.was_moved : SliderStatus → Bool
  | .Moved => true
  | .Unchanged => false

/-- Host type `keyboard::Modifiers`: a set of four modifier flags. -/
structure Modifiers where
  shift : Bool
  ctrl : Bool
  alt : Bool
  logo : Bool
deriving DecidableEq, Repr

/-- Bitflags `contains`: every flag set in `other` is set in `self`. -/
def Modifiers.contains (self other : Modifiers) : Bool :=
  (!other.shift || self.shift) && (!other.ctrl || self.ctrl) &&
    (!other.alt || self.alt) && (!other.logo || self.logo)

/-- The constant `keyboard::Modifiers::CTRL`. -/
def Modifiers.CTRL : Modifiers := ⟨false, true, false, false⟩

/-- Value of `Default::default()` for modifiers: none pressed. -/
def Modifiers.empty : Modifiers := ⟨false, false, false, false⟩

/-- Modelled from the spec: the crate's `core::ModulationRange` (not under
`src/`): a start/end pair of normalized values describing a modulation
range. -/
structure ModulationRange where
  start : Normal
  stop : Normal
deriving DecidableEq, Repr

/-- Host type `iced::Length` (only the shape of the data matters here). -/
inductive Length where
  | Fixed (v : ℚ)
  | Fill
  | Shrink
deriving DecidableEq, Repr

/-- Host type `iced::Point`. -/
structure Point where
  x : ℚ
  y : ℚ
deriving DecidableEq, Repr

/-- Host type `iced::Size`. -/
structure Size where
  width : ℚ
  height : ℚ
deriving DecidableEq, Repr

/-- Host type `iced::Rectangle`. -/
structure Rectangle where
  x : ℚ
  y : ℚ
  width : ℚ
  height : ℚ
deriving DecidableEq, Repr

/-- Method `Rectangle::contains`: the point lies in the half-open box. -/
def Rectangle.contains (r : Rectangle) (p : Point) : Bool :=
  decide (r.x ≤ p.x) && decide (p.x < r.x + r.width) &&
    decide (r.y ≤ p.y) && decide (p.y < r.y + r.height)

/-- Method `Rectangle::size`. -/
def Rectangle.size (r : Rectangle) : Size := ⟨r.width, r.height⟩

/-- Host type `mouse::click::Kind`, as computed by the host's
`mouse::Click::new` from the position and the previous click.  The widget
only matches on whether the kind is `Single`. -/
inductive ClickKind where
  | Single
  | Double
  | Triple
deriving DecidableEq, Repr

/-- Host type `mouse::ScrollDelta`. -/
inductive ScrollDelta where
  | Lines (x y : ℚ)
  | Pixels (x y : ℚ)
deriving DecidableEq, Repr

/-- The events `Knob::on_event` distinguishes.  Mouse and touch variants
that the source handles in one match arm are merged into one constructor:
`CursorMoved` also stands for `FingerMoved`, `ButtonPressed` for
`FingerPressed` (carrying the click kind the host's `mouse::Click::new`
computes), `ButtonReleased` for `FingerLifted`/`FingerLost`, and
`ModifiersChanged` for the three keyboard events that all store the new
modifiers. -/
inductive Event where
  | CursorMoved
  | WheelScrolled (delta : ScrollDelta)
  | ButtonPressed (click_kind : ClickKind)
  | ButtonReleased
  | ModifiersChanged (m : Modifiers)
  | Other
deriving DecidableEq, Repr

/-- Host type `event::Status`. -/
inductive Status where
  | Captured
  | Ignored
deriving DecidableEq, Repr

/-- Observable effects pushed to the host `Shell` by `Knob::on_event`.
`Grab` and `Release` record that the configured `on_grab` / `on_release`
callback was invoked (the callbacks themselves are host closures, modelled
by their configured-flags); `Change` records `fire_on_change` publishing
the `on_change` message with the current value. -/
inductive Effect where
  | Grab
  | Change (v : Normal)
  | Release
deriving DecidableEq, Repr

/-- The `Knob` widget struct (`src/native/knob.rs`).  The `on_change`
closure always exists and is abstracted away (its invocation is the
`Effect.Change` event); `on_grab` / `on_release` are optional closures,
modelled by whether they are configured.  The style payload is an arbitrary
type parameter. -/
structure Knob (Style : Type) where
  normal_param : NormalParam
  size : Length
  on_grab : Bool
  on_release : Bool
  scalar : ℚ
  wheel_scalar : ℚ
  modifier_scalar : ℚ
  modifier_keys : Modifiers
  bipolar_center : Option Normal
  style : Style
  tick_marks : Option Nat
  text_marks : Option Nat
  mod_range_1 : Option ModulationRange
  mod_range_2 : Option ModulationRange

/-- Builder `Knob::mod_range`: sets the first modulation range. -/
def Knob.mod_range {Style : Type} (k : Knob Style) (m : ModulationRange) :
    Knob Style :=
  { k with mod_range_1 := some m }

/-- Builder `Knob::mod_range_2` (primed to avoid the clash with the field
of the same name): per the source, it assigns
`self.mod_range_1 = Some(mod_range)`. -/
def Knob.mod_range_2' {Style : Type} (k : Knob Style) (m : ModulationRange) :
    Knob Style :=
  { k with mod_range_1 := some m }

/-- The local `State` of a `Knob` (`src/native/knob.rs`).  The two
render-cache fields are modelled separately (they are never read by
`on_event`). -/
structure State where
  dragging_status : Option SliderStatus
  prev_drag_y : ℚ
  prev_normal : Normal
  continuous_normal : ℚ
  pressed_modifiers : Modifiers
  last_click : Option ClickKind
deriving DecidableEq, Repr

/-- Constructor `State::new`. -/
def State.new (normal : Normal) : State :=
  { dragging_status := none
    prev_drag_y := 0
    prev_normal := normal
    continuous_normal := normal.as_f32
    pressed_modifiers := Modifiers.empty
    last_click := none }

/-- Function `Knob::move_virtual_slider` (`src/native/knob.rs`, lines
239–258).
Returns the updated knob and state together with the `SliderStatus`. -/
def Knob.move_virtual_slider {Style : Type} (k : Knob Style) (state : State)
    (normal_delta : ℚ) : Knob Style × State × SliderStatus :=
  if |normal_delta| < f32_epsilon then
    (k, state, .Unchanged)
  else
    let normal_delta :=
      if state.pressed_modifiers.contains k.modifier_keys then
        normal_delta * k.modifier_scalar
      else normal_delta
    let k := { k with normal_param.value :=
                 Normal.set_clipped (state.continuous_normal - normal_delta) }
    let state := { state with continuous_normal := k.normal_param.value.as_f32 }
    (k, state, .Moved)

/-- Helper `Knob::maybe_fire_on_grab`: invokes the `on_grab` callback when
it is configured. -/
def Knob.maybe_fire_on_grab {Style : Type} (k : Knob Style) : List Effect :=
  if k.on_grab then [.Grab] else []

/-- Helper `Knob::fire_on_change`: publishes the `on_change` message with
the current value. -/
def Knob.fire_on_change {Style : Type} (k : Knob Style) : List Effect :=
  [.Change k.normal_param.value]

/-- Helper `Knob::maybe_fire_on_release`: invokes the `on_release`
callback when it is configured. -/
def Knob.maybe_fire_on_release {Style : Type} (k : Knob Style) : List Effect :=
  if k.on_release then [.Release] else []

/-- The scroll-to-lines conversion inside the `WheelScrolled` arm: a
`Lines` delta contributes its `y`; a `Pixels` delta counts as `1`, `-1` or
`0` lines by the sign of its `y`. -/
def scroll_lines : ScrollDelta → ℚ
  | .Lines _ y => y
  | .Pixels _ y => if y > 0 then 1 else if y < 0 then -1 else 0

/-- The event match of `Knob::on_event` (`src/native/knob.rs`, lines
373–527), applied after the discontinuity update has produced `state`. -/
def Knob.on_event_body {Style : Type} (k : Knob Style) (state : State)
    (event : Event) (cursor : Option Point) (bounds : Rectangle) :
    Knob Style × State × List Effect × Status :=
  match event with
  | .CursorMoved =>
    if state.dragging_status.isNone then
      (k, state, [], .Ignored)
    else
      match cursor with
      | none => (k, state, [], .Ignored)
      | some position =>
        let normal_delta := (position.y - state.prev_drag_y) * k.scalar
        let state := { state with prev_drag_y := position.y }
        let r := k.move_virtual_slider state normal_delta
        let k := r.1
        let state := r.2.1
        if r.2.2.was_moved then
          let state :=
            { state with dragging_status :=
                state.dragging_status.map SliderStatus.moved }
          (k, state, k.fire_on_change, .Captured)
        else
          (k, state, [], .Captured)
  | .WheelScrolled delta =>
    if k.wheel_scalar = 0 then
      (k, state, [], .Ignored)
    else if !(match cursor with
              | some pos => bounds.contains pos
              | none => false) then
      (k, state, [], .Ignored)
    else
      let lines := scroll_lines delta
      if lines = 0 then
        (k, state, [], .Ignored)
      else
        let normal_delta := -lines * k.wheel_scalar
        let r := k.move_virtual_slider state normal_delta
        let k' := r.1
        let state' := r.2.1
        if r.2.2.was_moved then
          let grab_effs :=
            if state'.dragging_status.isNone then k'.maybe_fire_on_grab
            else []
          let change_effs := k'.fire_on_change
          match state'.dragging_status with
          | some slider_status =>
            -- Widget was grabbed => keep it grabbed
            let state' :=
              { state' with dragging_status := some slider_status.moved }
            (k', state', grab_effs ++ change_effs, .Captured)
          | none =>
            (k', state', grab_effs ++ change_effs ++ k'.maybe_fire_on_release,
              .Captured)
        else
          (k', state', [], .Captured)
  | .ButtonPressed click_kind =>
    match cursor with
    | none => (k, state, [], .Ignored)
    | some position =>
      if !(bounds.contains position) then
        (k, state, [], .Ignored)
      else
        match click_kind with
        | .Single =>
          let effs := k.maybe_fire_on_grab
          let state :=
            { state with dragging_status := some .Unchanged
                         prev_drag_y := position.y
                         last_click := some click_kind }
          (k, state, effs, .Captured)
        | _ =>
          -- Reset to default
          let prev_dragging_status := state.dragging_status
          let state := { state with dragging_status := none }
          if k.normal_param.value ≠ k.normal_param.default then
            let grab_effs :=
              if prev_dragging_status.isNone then k.maybe_fire_on_grab
              else []
            let k := { k with normal_param.value := k.normal_param.default }
            let effs := grab_effs ++ k.fire_on_change ++ k.maybe_fire_on_release
            let state := { state with last_click := some click_kind }
            (k, state, effs, .Captured)
          else
            let effs :=
              if prev_dragging_status.isSome then k.maybe_fire_on_release
              else []
            let state := { state with last_click := some click_kind }
            (k, state, effs, .Captured)
  | .ButtonReleased =>
    match state.dragging_status with
    | some slider_status =>
      let state := { state with dragging_status := none }
      let effs :=
        if k.on_grab || slider_status.was_moved then k.maybe_fire_on_release
        else []
      (k, state, effs, .Captured)
    | none => (k, state, [], .Ignored)
  | .ModifiersChanged m =>
    (k, { state with pressed_modifiers := m }, [], .Captured)
  | .Other => (k, state, [], .Ignored)

/-- Function `Knob::on_event` (`src/native/knob.rs`, lines 352–528).  `cursor` is
the host cursor's optional position, `bounds` is `layout.bounds()`.
Returns the updated knob and state, the effects pushed to the `Shell` in
order, and the `event::Status`. -/
def Knob.on_event {Style : Type} (k : Knob Style) (state : State)
    (event : Event) (cursor : Option Point) (bounds : Rectangle) :
    Knob Style × State × List Effect × Status :=
  -- Update state after a discontinuity
  let state :=
    if state.dragging_status.isNone ∧ state.prev_normal ≠ k.normal_param.value
    then
      { state with prev_normal := k.normal_param.value
                   continuous_normal := k.normal_param.value.as_f32 }
    else state
  k.on_event_body state event cursor bounds

/-- Folding `on_event` over a sequence of `(event, cursor, bounds)` inputs,
discarding the published effects and statuses. -/
def Knob.on_event_seq {Style : Type} (k : Knob Style) (state : State) :
    List (Event × Option Point × Rectangle) → Knob Style × State
  | [] => (k, state)
  | (event, cursor, bounds) :: rest =>
    let r := k.on_event state event cursor bounds
    Knob.on_event_seq r.1 r.2.1 rest

/-- Host type `iced_renderer::geometry::Cache`, observed through its
generation: `clear` invalidates the cached geometry, forcing the next
`draw` to rebuild it. -/
structure GeometryCache where
  generation : Nat
deriving DecidableEq, Repr

/-- Method `geometry::Cache::clear`. -/
def GeometryCache.clear (c : GeometryCache) : GeometryCache :=
  ⟨c.generation + 1⟩

namespace tick_marks

/-- Modelled from the spec: the `tick_marks::Shape` style type (its module
is not under `src/`); the match arms read from it in
`src/graphics/tick_marks/mod.rs` are `None`, `Line { length, .. }` and
`Circle { diameter, .. }`. -/
inductive Shape where
  | None
  | Line (length : ℚ) (width : ℚ) (color : Nat)
  | Circle (diameter : ℚ) (color : Nat)
deriving DecidableEq, Repr

/-- Modelled from the spec: the tick-marks `Appearance` style, holding one
`Shape` per tier. -/
structure Appearance where
  tier_1 : Shape
  tier_2 : Shape
  tier_3 : Shape
deriving DecidableEq, Repr

/-- Modelled from the spec: the tick-marks `Placement` (its module is not
under `src/`); only its (decidable) equality is read by the cache. -/
structure Placement where
  tag : Nat
deriving DecidableEq, Repr

/-- Modelled from the spec: the `native::tick_marks::Group` (not under
`src/`), observed through its precomputed hash `Group::hashed()`. -/
structure Group where
  hashed : Nat
deriving DecidableEq, Repr

/-- Struct `CacheData` of `src/graphics/tick_marks/mod.rs`. -/
structure CacheData where
  cache : GeometryCache
  bounds : Rectangle
  tick_marks_hash : Nat
  style : Appearance
  placement : Placement
  inverse : Bool
  center : Point
  radius : ℚ
  start_angle : ℚ
  angle_span : ℚ
  inside : Bool
  size : Size
deriving DecidableEq, Repr

/-- Function `max_length` of `src/graphics/tick_marks/mod.rs` (lines
163–184): all three tier lengths are read from `style.tier_1`. -/
def max_length (style : Appearance) : ℚ :=
  let length_1 :=
    match style.tier_1 with
    | .None => 0
    | .Line length _ _ => length
    | .Circle diameter _ => diameter
  let length_2 :=
    match style.tier_1 with
    | .None => 0
    | .Line length _ _ => length
    | .Circle diameter _ => diameter
  let length_3 :=
    match style.tier_1 with
    | .None => 0
    | .Line length _ _ => length
    | .Circle diameter _ => diameter
  max (max length_1 length_2) length_3

/-- Method `Cache::draw_cached_linear` of `src/graphics/tick_marks/mod.rs`
(lines 74–106), restricted to its effect on the stored `CacheData`: when
any cache key differs from the stored one, the keys and the frame size are
updated and the geometry cache is cleared.  Returns the new data and
whether the geometry was cleared (and hence rebuilt by the following
`cache.draw`). -/
def draw_cached_linear (data : CacheData) (bounds : Rectangle)
    (tick_marks : Group) (style : Appearance) (placement : Placement)
    (inverse : Bool) : CacheData × Bool :=
  if !(data.bounds = bounds ∧ data.tick_marks_hash = tick_marks.hashed ∧
        data.style = style ∧ data.placement = placement ∧
        data.inverse = inverse) then
    ({ data with
        bounds := bounds
        tick_marks_hash := tick_marks.hashed
        style := style
        placement := placement
        inverse := inverse
        size := bounds.size
        cache := data.cache.clear }, true)
  else
    (data, false)

/-- Method `Cache::draw_cached_radial` of `src/graphics/tick_marks/mod.rs`
(lines 110–160), restricted to its effect on the stored `CacheData`. -/
def draw_cached_radial (data : CacheData) (center : Point) (radius : ℚ)
    (start_angle : ℚ) (angle_span : ℚ) (inside : Bool) (tick_marks : Group)
    (style : Appearance) (inverse : Bool) : CacheData × Bool :=
  if !(data.center = center ∧ data.radius = radius ∧
        data.start_angle = start_angle ∧ data.angle_span = angle_span ∧
        data.inside = inside ∧ data.tick_marks_hash = tick_marks.hashed ∧
        data.style = style ∧ data.inverse = inverse) then
    let frame_radius := if inside then radius else radius + max_length style
    let frame_size := frame_radius * 2
    ({ data with
        center := center
        radius := radius
        start_angle := start_angle
        angle_span := angle_span
        inside := inside
        tick_marks_hash := tick_marks.hashed
        style := style
        inverse := inverse
        size := ⟨frame_size, frame_size⟩
        cache := data.cache.clear }, true)
  else
    (data, false)

end tick_marks

namespace text_marks

/-- Modelled from the spec: the text-marks `Appearance` style (not under
`src/`); only its (decidable) equality is read by the cache. -/
structure Appearance where
  tag : Nat
deriving DecidableEq, Repr

/-- Modelled from the spec: the text-marks `Placement` (not under `src/`);
only its (decidable) equality is read by the cache. -/
structure Placement where
  tag : Nat
deriving DecidableEq, Repr

/-- Modelled from the spec: the `native::text_marks::Group` (not under
`src/`), observed through its precomputed hash `Group::hashed()`. -/
structure Group where
  hashed : Nat
deriving DecidableEq, Repr

/-- Struct `CacheData` of `src/graphics/text_marks/mod.rs`. -/
structure CacheData where
  cache : GeometryCache
  bounds : Rectangle
  text_marks_hash : Nat
  style : Appearance
  placement : Placement
  inverse : Bool
  center : Point
  radius : ℚ
  start_angle : ℚ
  angle_span : ℚ
deriving DecidableEq, Repr

/-- Method `Cache::draw_cached_linear` of `src/graphics/text_marks/mod.rs`
(lines 51–82), restricted to its effect on the stored `CacheData`. -/
def draw_cached_linear (data : CacheData) (bounds : Rectangle)
    (text_marks : Group) (style : Appearance) (placement : Placement)
    (inverse : Bool) : CacheData × Bool :=
  if !(data.bounds = bounds ∧ data.text_marks_hash = text_marks.hashed ∧
        data.style = style ∧ data.placement = placement ∧
        data.inverse = inverse) then
    ({ data with
        bounds := bounds
        text_marks_hash := text_marks.hashed
        style := style
        placement := placement
        inverse := inverse
        cache := data.cache.clear }, true)
  else
    (data, false)

end text_marks

/-- Modelled from the spec: the style sheet's `KnobAngleRange` (not under
`src/`), exposing `min()` and `max()` angles. -/
structure KnobAngleRange where
  min : ℚ
  max : ℚ
deriving DecidableEq, Repr

/-- Definition `angle_span = angle_range.max() - angle_range.min()` from
`src/graphics/knob.rs` (line 137). -/
def angle_span (angle_range : KnobAngleRange) : ℚ :=
  angle_range.max - angle_range.min

/-- Definition `value_angle = start_angle + normal.scale(angle_span)` from
`src/graphics/knob.rs` (line 138).  `start_angle` is the already-shifted
start angle computed on lines 131–136. -/
def value_angle (start_angle : ℚ) (angle_range : KnobAngleRange)
    (normal : Normal) : ℚ :=
  start_angle + normal.scale (angle_span angle_range)

/-- Whether an effect is the publication of an `on_change` message. -/
def Effect.is_change : Effect → Bool
  | .Change _ => true
  | _ => false

/-- Whether some `on_change` message appears among the published effects. -/
def has_change (effs : List Effect) : Bool :=
  effs.any Effect.is_change

/-- The length (or diameter) of a single tick-mark shape, as read by each
arm of `max_length`. -/
def tick_marks.shape_length : tick_marks.Shape → ℚ
  | .None => 0
  | .Line length _ _ => length
  | .Circle diameter _ => diameter

/-- A concrete knob fixture: value `1/2`, default `3/4`, both callbacks
configured, all scalars at their source defaults. -/
def knob0 : Knob Unit :=
  { normal_param := { value := ⟨1/2⟩, default := ⟨3/4⟩ }
    size := .Fixed 30
    on_grab := true
    on_release := true
    scalar := 77/20000
    wheel_scalar := 1/100
    modifier_scalar := 1/50
    modifier_keys := Modifiers.CTRL
    bipolar_center := none
    style := ()
    tick_marks := none
    text_marks := none
    mod_range_1 := none
    mod_range_2 := none }

/-- Fixture `knob0` with a sub-epsilon wheel scalar. -/
def knob_eps : Knob Unit := { knob0 with wheel_scalar := 1 / 2 ^ 30 }

/-- A concrete state fixture, in sync with `knob0`'s value. -/
def state0 : State := State.new ⟨1/2⟩

/-- Fixture `state0` with a drag in progress that has already moved. -/
def state_drag : State := { state0 with dragging_status := some .Moved }

/-- A concrete layout-bounds fixture containing the point `(5, 5)`. -/
def rect0 : Rectangle := ⟨0, 0, 30, 30⟩

/-- A concrete tick-marks cache-data fixture. -/
def tdata0 : tick_marks.CacheData :=
  { cache := ⟨0⟩
    bounds := rect0
    tick_marks_hash := 7
    style := ⟨.Line 3 1 0, .Line 2 1 0, .None⟩
    placement := ⟨1⟩
    inverse := false
    center := ⟨15, 15⟩
    radius := 12
    start_angle := 0
    angle_span := 3
    inside := false
    size := ⟨30, 30⟩ }

/-- A concrete text-marks cache-data fixture. -/
def xdata0 : text_marks.CacheData :=
  { cache := ⟨0⟩
    bounds := rect0
    text_marks_hash := 9
    style := ⟨2⟩
    placement := ⟨1⟩
    inverse := false
    center := ⟨15, 15⟩
    radius := 12
    start_angle := 0
    angle_span := 3 }

end IcedAudio

namespace IcedAudio

/-- C8: the builder `Knob::mod_range_2` assigns the `mod_range_1` field,
leaves the `mod_range_2` field unchanged, and changes no other field. -/
theorem claim_C8 {Style : Type} (k : Knob Style) (m : ModulationRange) :
    (k.mod_range_2' m).mod_range_1 = some m ∧
    (k.mod_range_2' m).mod_range_2 = k.mod_range_2 ∧
    (k.mod_range_2' m).normal_param = k.normal_param ∧
    (k.mod_range_2' m).size = k.size ∧
    (k.mod_range_2' m).on_grab = k.on_grab ∧
    (k.mod_range_2' m).on_release = k.on_release ∧
    (k.mod_range_2' m).scalar = k.scalar ∧
    (k.mod_range_2' m).wheel_scalar = k.wheel_scalar ∧
    (k.mod_range_2' m).modifier_scalar = k.modifier_scalar ∧
    (k.mod_range_2' m).modifier_keys = k.modifier_keys ∧
    (k.mod_range_2' m).bipolar_center = k.bipolar_center ∧
    (k.mod_range_2' m).style = k.style ∧
    (k.mod_range_2' m).tick_marks = k.tick_marks ∧
    (k.mod_range_2' m).text_marks = k.text_marks := by
  refine ⟨rfl, rfl, rfl, rfl, rfl, rfl, rfl, rfl, rfl, rfl, rfl, rfl, rfl, rfl⟩

/-- C10: `max_length` reads only `style.tier_1`: it equals the tier-1
shape's length, is unchanged under any change of `tier_2`/`tier_3`, and the
radial cache frame sized with it (for outside placement) accordingly
accounts only for the tier-1 shape. -/
theorem claim_C10 (style : tick_marks.Appearance)
    (t2 t3 : tick_marks.Shape) (data : tick_marks.CacheData) (center : Point)
    (radius start_angle as : ℚ) (g : tick_marks.Group) (inverse : Bool)
    (hh : data.tick_marks_hash ≠ g.hashed) :
    tick_marks.max_length style = tick_marks.shape_length style.tier_1 ∧
    tick_marks.max_length { style with tier_2 := t2, tier_3 := t3 } =
      tick_marks.max_length style ∧
    (tick_marks.draw_cached_radial data center radius start_angle as false g
        style inverse).1.size =
      ⟨(radius + tick_marks.shape_length style.tier_1) * 2,
        (radius + tick_marks.shape_length style.tier_1) * 2⟩ := by
  have h1 : ∀ s : tick_marks.Appearance,
      tick_marks.max_length s = tick_marks.shape_length s.tier_1 := by
    intro s
    unfold tick_marks.max_length tick_marks.shape_length
    cases s.tier_1 <;> simp
  refine ⟨h1 style, ?_, ?_⟩
  · rw [h1, h1]
  · have hc : ¬(data.center = center ∧ data.radius = radius ∧
        data.start_angle = start_angle ∧ data.angle_span = as ∧
        data.inside = false ∧ data.tick_marks_hash = g.hashed ∧
        data.style = style ∧ data.inverse = inverse) := by
      intro h
      exact hh h.2.2.2.2.2.1
    simp [tick_marks.draw_cached_radial, hc, h1]

end IcedAudio

namespace IcedAudio

/-- C10 witness at a concrete cache state whose stored hash differs. -/
theorem claim_C10_witness :
    (tick_marks.draw_cached_radial tdata0 ⟨15, 15⟩ 12 0 3 false ⟨8⟩
        tdata0.style false).1.size = ⟨30, 30⟩ := by
  have h := claim_C10 tdata0.style .None .None tdata0 ⟨15, 15⟩ 12 0 3 ⟨8⟩
    false (by simp [tdata0])
  rw [h.2.2]
  norm_num [tdata0, tick_marks.shape_length]

/-- C7: the knob renderer's indicator angle is the affine function
`value_angle = start_angle + normal * (angle_range.max - angle_range.min)`
of the normalized value, and is monotone in the value whenever
`max ≥ min`. -/
theorem claim_C7 (start_angle : ℚ) (r : KnobAngleRange) (a b : Normal)
    (hab : a.value ≤ b.value) (hr : r.min ≤ r.max) :
    value_angle start_angle r a = start_angle + a.value * (r.max - r.min) ∧
    value_angle start_angle r a ≤ value_angle start_angle r b := by
  refine ⟨rfl, ?_⟩
  unfold value_angle Normal.scale angle_span
  have hspan : (0:ℚ) ≤ r.max - r.min := by linarith
  have := mul_le_mul_of_nonneg_right hab hspan
  linarith

/-- C7 witness at concrete normals `1/4 ≤ 1/2` and the range `[0, 1]`. -/
theorem claim_C7_witness :
    value_angle 0 ⟨0, 1⟩ ⟨1/4⟩ ≤ value_angle 0 ⟨0, 1⟩ ⟨1/2⟩ :=
  (claim_C7 0 ⟨0, 1⟩ ⟨1/4⟩ ⟨1/2⟩ (by norm_num) (by norm_num)).2

/-- C6: the tick-marks and text-marks linear cache draws clear and rebuild
the cached geometry exactly when some cache key (bounds, marks hash, style,
placement, inverse) differs from the stored one; when all keys are equal
the stored cache data (geometry included) is unchanged. -/
theorem claim_C6 (td : tick_marks.CacheData) (bounds : Rectangle)
    (tg : tick_marks.Group) (ts : tick_marks.Appearance)
    (tp : tick_marks.Placement) (ti : Bool)
    (xd : text_marks.CacheData) (xbounds : Rectangle) (xg : text_marks.Group)
    (xs : text_marks.Appearance) (xp : text_marks.Placement) (xi : Bool) :
    ((tick_marks.draw_cached_linear td bounds tg ts tp ti).2 = false ↔
      (td.bounds = bounds ∧ td.tick_marks_hash = tg.hashed ∧ td.style = ts ∧
        td.placement = tp ∧ td.inverse = ti)) ∧
    ((td.bounds = bounds ∧ td.tick_marks_hash = tg.hashed ∧ td.style = ts ∧
        td.placement = tp ∧ td.inverse = ti) →
      (tick_marks.draw_cached_linear td bounds tg ts tp ti).1 = td) ∧
    ((text_marks.draw_cached_linear xd xbounds xg xs xp xi).2 = false ↔
      (xd.bounds = xbounds ∧ xd.text_marks_hash = xg.hashed ∧
        xd.style = xs ∧ xd.placement = xp ∧ xd.inverse = xi)) ∧
    ((xd.bounds = xbounds ∧ xd.text_marks_hash = xg.hashed ∧ xd.style = xs ∧
        xd.placement = xp ∧ xd.inverse = xi) →
      (text_marks.draw_cached_linear xd xbounds xg xs xp xi).1 = xd) := by
  by_cases h : (td.bounds = bounds ∧ td.tick_marks_hash = tg.hashed ∧
      td.style = ts ∧ td.placement = tp ∧ td.inverse = ti) <;>
    by_cases h' : (xd.bounds = xbounds ∧ xd.text_marks_hash = xg.hashed ∧
        xd.style = xs ∧ xd.placement = xp ∧ xd.inverse = xi) <;>
      simp [tick_marks.draw_cached_linear, text_marks.draw_cached_linear,
        h, h']

/-- C6 witness: with all keys equal, neither cache is cleared and both
stored cache data are unchanged. -/
theorem claim_C6_witness :
    (tick_marks.draw_cached_linear tdata0 rect0 ⟨7⟩ tdata0.style
        tdata0.placement false).2 = false ∧
    (tick_marks.draw_cached_linear tdata0 rect0 ⟨7⟩ tdata0.style
        tdata0.placement false).1 = tdata0 ∧
    (text_marks.draw_cached_linear xdata0 rect0 ⟨9⟩ xdata0.style
        xdata0.placement false).2 = false ∧
    (text_marks.draw_cached_linear xdata0 rect0 ⟨9⟩ xdata0.style
        xdata0.placement false).1 = xdata0 := by
  have h := claim_C6 tdata0 rect0 ⟨7⟩ tdata0.style tdata0.placement false
    xdata0 rect0 ⟨9⟩ xdata0.style xdata0.placement false
  have hk : tdata0.bounds = rect0 ∧
      tdata0.tick_marks_hash = (⟨7⟩ : tick_marks.Group).hashed ∧
      tdata0.style = tdata0.style ∧ tdata0.placement = tdata0.placement ∧
      tdata0.inverse = false := by simp [tdata0]
  have hx : xdata0.bounds = rect0 ∧
      xdata0.text_marks_hash = (⟨9⟩ : text_marks.Group).hashed ∧
      xdata0.style = xdata0.style ∧ xdata0.placement = xdata0.placement ∧
      xdata0.inverse = false := by simp [xdata0]
  exact ⟨h.1.mpr hk, h.2.1 hk, h.2.2.1.mpr hx, h.2.2.2 hx⟩

end IcedAudio

namespace IcedAudio

/-- C3: a cursor/finger move with no drag in progress is `Ignored`,
publishes nothing, and leaves the knob's value unchanged. -/
theorem claim_C3 {Style : Type} (k : Knob Style) (st : State)
    (cursor : Option Point) (bounds : Rectangle)
    (h : st.dragging_status = none) :
    (k.on_event st .CursorMoved cursor bounds).2.2.2 = .Ignored ∧
    (k.on_event st .CursorMoved cursor bounds).2.2.1 = [] ∧
    (k.on_event st .CursorMoved cursor bounds).1.normal_param.value =
      k.normal_param.value := by
  unfold Knob.on_event Knob.on_event_body
  by_cases hd : st.prev_normal ≠ k.normal_param.value <;> simp [h, hd]

/-- C3 witness: a cursor move over `knob0` in its initial state. -/
theorem claim_C3_witness :
    (knob0.on_event state0 .CursorMoved (some ⟨5, 9⟩) rect0).2.2.2 =
      .Ignored ∧
    (knob0.on_event state0 .CursorMoved (some ⟨5, 9⟩) rect0).2.2.1 = [] :=
  have h := claim_C3 knob0 state0 (some ⟨5, 9⟩) rect0 (by simp [state0, State.new])
  ⟨h.1, h.2.1⟩

/-- C4 (amended): `move_virtual_slider` with `|d| ≥ f32::EPSILON` sets the
value to `set_clipped(continuous_normal - d·modifier_scalar)` when the
pressed modifiers contain the configured modifier keys and to
`set_clipped(continuous_normal - d)` otherwise (the delta is subtracted,
so a positive delta decreases the value); with `|d| < f32::EPSILON` the
value is unchanged and the status is `Unchanged`. -/
theorem claim_C4 {Style : Type} (k : Knob Style) (st : State) (d : ℚ) :
    (f32_epsilon ≤ |d| →
      (st.pressed_modifiers.contains k.modifier_keys = true →
        (k.move_virtual_slider st d).1.normal_param.value =
          Normal.set_clipped (st.continuous_normal - d * k.modifier_scalar)) ∧
      (st.pressed_modifiers.contains k.modifier_keys = false →
        (k.move_virtual_slider st d).1.normal_param.value =
          Normal.set_clipped (st.continuous_normal - d)) ∧
      (k.move_virtual_slider st d).2.2 = .Moved) ∧
    (|d| < f32_epsilon →
      (k.move_virtual_slider st d).1.normal_param.value =
        k.normal_param.value ∧
      (k.move_virtual_slider st d).2.2 = .Unchanged) := by
  unfold Knob.move_virtual_slider
  constructor
  · intro he
    have hnl : ¬ (|d| < f32_epsilon) := not_lt.mpr he
    exact ⟨fun hm => by simp [hnl, hm], fun hm => by simp [hnl, hm],
      by simp [hnl]⟩
  · intro hl
    simp [hl]

/-- C4 witness: with no modifiers pressed and `d = 1/4`, the value becomes
`set_clipped(continuous_normal - 1/4)`. -/
theorem claim_C4_witness :
    (knob0.move_virtual_slider state0 (1/4)).1.normal_param.value =
      Normal.set_clipped (state0.continuous_normal - 1/4) ∧
    (knob0.move_virtual_slider state0 (1/4)).2.2 = .Moved := by
  have he : f32_epsilon ≤ |(1/4 : ℚ)| := by
    rw [abs_of_pos (by norm_num : (0:ℚ) < 1/4)]
    norm_num [f32_epsilon]
  have h := (claim_C4 knob0 state0 (1/4)).1 he
  exact ⟨h.2.1 (by decide), h.2.2⟩

/-- C4 counterexample to the claim as stated: with `d = 1/4 > 0` and no
modifiers, the value does not move *by* `d` (to
`set_clipped(continuous_normal + d) = 3/4`); it moves to
`set_clipped(continuous_normal - d) = 1/4`. -/
theorem claim_C4_counterexample :
    (knob0.move_virtual_slider state0 (1/4)).1.normal_param.value =
      ⟨1/4⟩ ∧
    (knob0.move_virtual_slider state0 (1/4)).1.normal_param.value ≠
      Normal.set_clipped (state0.continuous_normal + 1/4) := by
  norm_num [knob0, state0, State.new, Knob.move_virtual_slider, f32_epsilon,
    Normal.set_clipped, Normal.as_f32, Modifiers.contains, Modifiers.CTRL,
    Modifiers.empty, Normal.mk.injEq, abs]

/-- C9: on a release/lift/loss event with a drag in progress the drag
status is cleared, the event is `Captured`, and (with `on_release`
configured) the `on_release` callback is invoked exactly when `on_grab` is
configured or the slider moved during the drag; with no drag in progress
the event is `Ignored` and publishes nothing. -/
theorem claim_C9 {Style : Type} (k : Knob Style) (st : State)
    (cursor : Option Point) (bounds : Rectangle) :
    (∀ s, st.dragging_status = some s →
      (k.on_event st .ButtonReleased cursor bounds).2.1.dragging_status =
        none ∧
      (k.on_event st .ButtonReleased cursor bounds).2.2.2 = .Captured ∧
      (k.on_release = true →
        (Effect.Release ∈ (k.on_event st .ButtonReleased cursor bounds).2.2.1
          ↔ (k.on_grab = true ∨ s.was_moved = true)))) ∧
    (st.dragging_status = none →
      (k.on_event st .ButtonReleased cursor bounds).2.2.2 = .Ignored ∧
      (k.on_event st .ButtonReleased cursor bounds).2.2.1 = []) := by
  constructor
  · intro s hs
    refine ⟨?_, ?_, fun hr => ?_⟩
    · unfold Knob.on_event Knob.on_event_body; simp [hs]
    · unfold Knob.on_event Knob.on_event_body; simp [hs]
    · unfold Knob.on_event Knob.on_event_body
      cases hgrab : k.on_grab <;> cases hmv : s.was_moved <;>
        simp [hs, hr, hgrab, hmv, Knob.maybe_fire_on_release]
  · intro hn
    unfold Knob.on_event Knob.on_event_body
    by_cases hd : st.prev_normal ≠ k.normal_param.value <;> simp [hn, hd]

/-- C9 witness: releasing during a moved drag clears the drag and invokes
`on_release`. -/
theorem claim_C9_witness :
    (knob0.on_event state_drag .ButtonReleased none rect0).2.1.dragging_status
        = none ∧
    Effect.Release ∈ (knob0.on_event state_drag .ButtonReleased none
        rect0).2.2.1 := by
  have h := (claim_C9 knob0 state_drag none rect0).1 .Moved
    (by simp [state_drag])
  exact ⟨h.1, (h.2.2 (by decide)).mpr (Or.inr (by decide))⟩

end IcedAudio

namespace IcedAudio

/-- C2: a left/finger press inside the bounds whose click kind is not
`Single` resets the value to the default, ends any drag in progress, and
publishes the `on_change` message exactly when the value differed from the
default (so when they were equal, no `on_change` is published and the
value is unchanged). -/
theorem claim_C2 {Style : Type} (k : Knob Style) (st : State)
    (bounds : Rectangle) (p : Point) (kind : ClickKind)
    (hin : bounds.contains p = true) (hkind : kind ≠ .Single) :
    (k.on_event st (.ButtonPressed kind) (some p)
        bounds).1.normal_param.value = k.normal_param.default ∧
    (k.on_event st (.ButtonPressed kind) (some p)
        bounds).2.1.dragging_status = none ∧
    (has_change (k.on_event st (.ButtonPressed kind) (some p) bounds).2.2.1
        = true ↔ k.normal_param.value ≠ k.normal_param.default) := by
  cases kind with
  | Single => exact absurd rfl hkind
  | Double =>
    unfold Knob.on_event Knob.on_event_body
    by_cases hv : k.normal_param.value = k.normal_param.default <;>
      by_cases hd : st.prev_normal ≠ k.normal_param.value <;>
        simp [hin, hv, hd, has_change, Effect.is_change,
          Knob.maybe_fire_on_grab, Knob.fire_on_change,
          Knob.maybe_fire_on_release] <;>
      (rintro x - - rfl; rfl)
  | Triple =>
    unfold Knob.on_event Knob.on_event_body
    by_cases hv : k.normal_param.value = k.normal_param.default <;>
      by_cases hd : st.prev_normal ≠ k.normal_param.value <;>
        simp [hin, hv, hd, has_change, Effect.is_change,
          Knob.maybe_fire_on_grab, Knob.fire_on_change,
          Knob.maybe_fire_on_release] <;>
      (rintro x - - rfl; rfl)

end IcedAudio

namespace IcedAudio

/-- C2 witness: a double click inside the bounds resets `knob0`'s value
(`1/2`) to its default (`3/4`) and publishes an `on_change` message. -/
theorem claim_C2_witness :
    (knob0.on_event state0 (.ButtonPressed .Double) (some ⟨5, 5⟩)
        rect0).1.normal_param.value = ⟨3/4⟩ ∧
    has_change (knob0.on_event state0 (.ButtonPressed .Double) (some ⟨5, 5⟩)
        rect0).2.2.1 = true := by
  have h := claim_C2 knob0 state0 rect0 ⟨5, 5⟩ .Double
    (by norm_num [rect0, Rectangle.contains]) (by decide)
  refine ⟨h.1.trans rfl, h.2.2.mpr ?_⟩
  norm_num [knob0, Normal.mk.injEq]

end IcedAudio

namespace IcedAudio

/-- C5 (amended): for a wheel event over a synced state, a zero
`wheel_scalar`, a cursor not inside the bounds, or a scroll amounting to 0
lines gives `Ignored` with no message and an unchanged value; otherwise,
with the modifier keys not held, a scroll of `y` lines moves the value to
`set_clipped(value + y·wheel_scalar)` provided
`|y·wheel_scalar| ≥ f32::EPSILON` (and leaves it unchanged with no message
otherwise), and when it moved with no drag in progress the configured
`on_grab`, `on_change` and `on_release` callbacks fire in that order. -/
theorem claim_C5 {Style : Type} (k : Knob Style) (st : State)
    (delta : ScrollDelta) (cursor : Option Point) (bounds : Rectangle)
    (hsync1 : st.prev_normal = k.normal_param.value)
    (hsync2 : st.continuous_normal = k.normal_param.value.value) :
    (k.wheel_scalar = 0 →
      (k.on_event st (.WheelScrolled delta) cursor bounds).2.2.2 =
        .Ignored ∧
      (k.on_event st (.WheelScrolled delta) cursor bounds).2.2.1 = [] ∧
      (k.on_event st (.WheelScrolled delta) cursor
        bounds).1.normal_param.value = k.normal_param.value) ∧
    ((∀ p, cursor = some p → bounds.contains p = false) →
      (k.on_event st (.WheelScrolled delta) cursor bounds).2.2.2 =
        .Ignored ∧
      (k.on_event st (.WheelScrolled delta) cursor bounds).2.2.1 = [] ∧
      (k.on_event st (.WheelScrolled delta) cursor
        bounds).1.normal_param.value = k.normal_param.value) ∧
    (scroll_lines delta = 0 →
      (k.on_event st (.WheelScrolled delta) cursor bounds).2.2.2 =
        .Ignored ∧
      (k.on_event st (.WheelScrolled delta) cursor bounds).2.2.1 = [] ∧
      (k.on_event st (.WheelScrolled delta) cursor
        bounds).1.normal_param.value = k.normal_param.value) ∧
    (∀ p, cursor = some p → bounds.contains p = true →
      k.wheel_scalar ≠ 0 → scroll_lines delta ≠ 0 →
      st.pressed_modifiers.contains k.modifier_keys = false →
      (f32_epsilon ≤ |scroll_lines delta * k.wheel_scalar| →
        (k.on_event st (.WheelScrolled delta) cursor
            bounds).1.normal_param.value =
          Normal.set_clipped (k.normal_param.value.value +
            scroll_lines delta * k.wheel_scalar) ∧
        (st.dragging_status = none → k.on_grab = true →
          k.on_release = true →
          (k.on_event st (.WheelScrolled delta) cursor bounds).2.2.1 =
            [.Grab,
              .Change (k.on_event st (.WheelScrolled delta) cursor
                bounds).1.normal_param.value,
              .Release])) ∧
      (|scroll_lines delta * k.wheel_scalar| < f32_epsilon →
        (k.on_event st (.WheelScrolled delta) cursor
          bounds).1.normal_param.value = k.normal_param.value ∧
        (k.on_event st (.WheelScrolled delta) cursor bounds).2.2.1 = [])) := by
  have habs : ∀ l w : ℚ, |(-l) * w| = |l * w| := by
    intro l w; rw [neg_mul, abs_neg]
  refine ⟨fun hw => ?_, fun hcur => ?_, fun hl => ?_, fun p hp hin hw hl hm => ?_⟩
  · unfold Knob.on_event Knob.on_event_body; simp [hw, hsync1]
  · unfold Knob.on_event Knob.on_event_body
    cases cursor with
    | none => by_cases hw : k.wheel_scalar = 0 <;> simp [hw, hsync1]
    | some p =>
      have := hcur p rfl
      by_cases hw : k.wheel_scalar = 0 <;> simp [hw, this, hsync1]
  · unfold Knob.on_event Knob.on_event_body
    by_cases hw : k.wheel_scalar = 0
    · simp [hw, hsync1]
    · cases cursor with
      | none => simp [hw, hsync1]
      | some p =>
        by_cases hin : bounds.contains p <;> simp [hw, hin, hl, hsync1]
  · subst hp
    constructor
    · intro he
      have hne : ¬ (|scroll_lines delta * k.wheel_scalar| < f32_epsilon) :=
        not_lt.mpr he
      constructor
      · unfold Knob.on_event Knob.on_event_body Knob.move_virtual_slider
        simp [hw, hin, hl, hm, hne, hsync1, hsync2, SliderStatus.was_moved]
        cases hds : st.dragging_status <;> simp [hds]
      · intro hdrag hgrab hrel
        unfold Knob.on_event Knob.on_event_body Knob.move_virtual_slider
        simp [hw, hin, hl, hm, hne, hsync1, hsync2, hdrag, hgrab, hrel,
          SliderStatus.was_moved, Knob.maybe_fire_on_grab,
          Knob.fire_on_change, Knob.maybe_fire_on_release]
    · intro hlt
      unfold Knob.on_event Knob.on_event_body Knob.move_virtual_slider
      simp [hw, hin, hl, hlt, hsync1, SliderStatus.was_moved]

end IcedAudio

namespace IcedAudio

/-- C5 witness: scrolling one line up over `knob0` moves the value from
`1/2` to `51/100` and fires `on_grab`, `on_change`, `on_release` in that
order. -/
theorem claim_C5_witness :
    (knob0.on_event state0 (.WheelScrolled (.Lines 0 1)) (some ⟨5, 5⟩)
        rect0).1.normal_param.value = ⟨51/100⟩ ∧
    (knob0.on_event state0 (.WheelScrolled (.Lines 0 1)) (some ⟨5, 5⟩)
        rect0).2.2.1 = [.Grab, .Change ⟨51/100⟩, .Release] := by
  have h := (claim_C5 knob0 state0 (.Lines 0 1) (some ⟨5, 5⟩) rect0 rfl
      rfl).2.2.2 ⟨5, 5⟩ rfl (by norm_num [rect0, Rectangle.contains])
    (by norm_num [knob0]) (by norm_num [scroll_lines])
    (by norm_num [state0, State.new, knob0, Modifiers.contains,
      Modifiers.CTRL, Modifiers.empty])
  have he : f32_epsilon ≤ |scroll_lines (.Lines 0 1) * knob0.wheel_scalar| := by
    have : scroll_lines (.Lines 0 1) * knob0.wheel_scalar = 1/100 := by
      norm_num [scroll_lines, knob0]
    rw [this, abs_of_pos (by norm_num : (0:ℚ) < 1/100)]
    norm_num [f32_epsilon]
  have h1 := h.1 he
  have hval : (knob0.on_event state0 (.WheelScrolled (.Lines 0 1))
      (some ⟨5, 5⟩) rect0).1.normal_param.value = ⟨51/100⟩ := by
    rw [h1.1]
    norm_num [Normal.set_clipped, knob0, scroll_lines, Normal.mk.injEq,
      min_def, max_def]
  refine ⟨hval, ?_⟩
  have heffs := h1.2 rfl rfl rfl
  rw [heffs, hval]

/-- A wheel scroll whose resulting normal delta is below `f32::EPSILON`
leaves the knob's value unchanged. -/
theorem wheel_sub_epsilon_value {Style : Type} (k : Knob Style) (st : State)
    (delta : ScrollDelta) (p : Point) (bounds : Rectangle)
    (hlt : |scroll_lines delta * k.wheel_scalar| < f32_epsilon)
    (hsync1 : st.prev_normal = k.normal_param.value) :
    (k.on_event st (.WheelScrolled delta) (some p)
      bounds).1.normal_param.value = k.normal_param.value := by
  unfold Knob.on_event Knob.on_event_body Knob.move_virtual_slider
  by_cases hw : k.wheel_scalar = 0
  · simp [hw, hsync1]
  · by_cases hin : bounds.contains p
    · by_cases hl : scroll_lines delta = 0
      · simp [hw, hin, hl, hsync1]
      · simp [hw, hin, hl, hsync1, hlt, SliderStatus.was_moved]
    · simp [hw, hin, hsync1]

/-- C5 counterexample to the claim as stated: with the sub-epsilon wheel
scalar `2⁻³⁰`, a one-line scroll leaves the value at `1/2`, while the
claimed new value `set_clipped(1/2 + 1·wheel_scalar)` differs from
`1/2`. -/
theorem claim_C5_counterexample :
    (knob_eps.on_event state0 (.WheelScrolled (.Lines 0 1)) (some ⟨5, 5⟩)
        rect0).1.normal_param.value = ⟨1/2⟩ ∧
    Normal.set_clipped (knob_eps.normal_param.value.value +
        scroll_lines (.Lines 0 1) * knob_eps.wheel_scalar) ≠ ⟨1/2⟩ := by
  constructor
  · have hlt : |scroll_lines (.Lines 0 1) * knob_eps.wheel_scalar| <
        f32_epsilon := by
      have h1 : scroll_lines (.Lines 0 1) * knob_eps.wheel_scalar =
          1 / 2 ^ 30 := by norm_num [scroll_lines, knob_eps, knob0]
      rw [h1, abs_of_pos (by norm_num : (0:ℚ) < 1 / 2 ^ 30)]
      norm_num [f32_epsilon]
    exact (wheel_sub_epsilon_value knob_eps state0 (.Lines 0 1) ⟨5, 5⟩ rect0
      hlt rfl).trans rfl
  · norm_num [Normal.set_clipped, knob_eps, knob0, scroll_lines,
      Normal.mk.injEq, min_def, max_def]

end IcedAudio

namespace IcedAudio

/-- Clipping always lands in the normalized range. -/
theorem set_clipped_isValid (x : ℚ) : (Normal.set_clipped x).isValid := by
  unfold Normal.set_clipped Normal.isValid
  exact ⟨le_max_right _ _, max_le (min_le_right x 1) zero_le_one⟩

/-- Function `move_virtual_slider` never touches the default, and either leaves the
value alone or produces a clipped value. -/
theorem move_virtual_slider_frame {Style : Type} (k : Knob Style)
    (st : State) (d : ℚ) :
    (k.move_virtual_slider st d).1.normal_param.default =
      k.normal_param.default ∧
    ((k.move_virtual_slider st d).1.normal_param.value =
        k.normal_param.value ∨
      ∃ x, (k.move_virtual_slider st d).1.normal_param.value =
        Normal.set_clipped x) := by
  unfold Knob.move_virtual_slider
  by_cases h : |d| < f32_epsilon
  · simp [h]
  · refine ⟨by simp [h], Or.inr ?_⟩
    by_cases hm : st.pressed_modifiers.contains k.modifier_keys
    · exact ⟨st.continuous_normal - d * k.modifier_scalar, by simp [h, hm]⟩
    · exact ⟨st.continuous_normal - d, by simp [h, hm]⟩

/-- Across any single event, the default is untouched and the value is
either unchanged, reset to the default, or set through `set_clipped`. -/
theorem on_event_frame {Style : Type} (k : Knob Style) (st : State)
    (ev : Event) (cursor : Option Point) (bounds : Rectangle) :
    (k.on_event st ev cursor bounds).1.normal_param.default =
      k.normal_param.default ∧
    ((k.on_event st ev cursor bounds).1.normal_param.value =
        k.normal_param.value ∨
      (k.on_event st ev cursor bounds).1.normal_param.value =
        k.normal_param.default ∨
      ∃ x, (k.on_event st ev cursor bounds).1.normal_param.value =
        Normal.set_clipped x) := by
  have body : ∀ st' : State,
      (k.on_event_body st' ev cursor bounds).1.normal_param.default =
        k.normal_param.default ∧
      ((k.on_event_body st' ev cursor bounds).1.normal_param.value =
          k.normal_param.value ∨
        (k.on_event_body st' ev cursor bounds).1.normal_param.value =
          k.normal_param.default ∨
        ∃ x, (k.on_event_body st' ev cursor bounds).1.normal_param.value =
          Normal.set_clipped x) := by
    intro st'
    cases ev with
    | CursorMoved =>
      by_cases h1 : st'.dragging_status.isNone
      · simp [Knob.on_event_body, h1]
      · cases cursor with
        | none => simp [Knob.on_event_body, h1]
        | some position =>
          obtain ⟨hd, hv⟩ := move_virtual_slider_frame k
            { st' with prev_drag_y := position.y }
            ((position.y - st'.prev_drag_y) * k.scalar)
          have hk : (k.on_event_body st' .CursorMoved (some position)
                bounds).1 =
              (k.move_virtual_slider { st' with prev_drag_y := position.y }
                ((position.y - st'.prev_drag_y) * k.scalar)).1 := by
            by_cases hm : (k.move_virtual_slider
                { st' with prev_drag_y := position.y }
                ((position.y - st'.prev_drag_y) * k.scalar)).2.2.was_moved <;>
              simp [Knob.on_event_body, h1, hm]
          rw [hk]
          refine ⟨hd, ?_⟩
          rcases hv with h | ⟨x, hx⟩
          · exact Or.inl h
          · exact Or.inr (Or.inr ⟨x, hx⟩)
    | WheelScrolled delta =>
      by_cases hw : k.wheel_scalar = 0
      · simp [Knob.on_event_body, hw]
      · cases cursor with
        | none => simp [Knob.on_event_body, hw]
        | some p =>
          by_cases hin : bounds.contains p
          · by_cases hl : scroll_lines delta = 0
            · simp [Knob.on_event_body, hw, hin, hl]
            · obtain ⟨hd, hv⟩ := move_virtual_slider_frame k st'
                (-(scroll_lines delta * k.wheel_scalar))
              have hk : (k.on_event_body st' (.WheelScrolled delta) (some p)
                    bounds).1 =
                  (k.move_virtual_slider st'
                    (-(scroll_lines delta * k.wheel_scalar))).1 := by
                by_cases hm : (k.move_virtual_slider st'
                    (-(scroll_lines delta *
                      k.wheel_scalar))).2.2.was_moved <;>
                  rcases hds : (k.move_virtual_slider st'
                      (-(scroll_lines delta *
                        k.wheel_scalar))).2.1.dragging_status with _ | sl <;>
                    simp [Knob.on_event_body, hw, hin, hl, hm, hds]
              rw [hk]
              refine ⟨hd, ?_⟩
              rcases hv with h | ⟨x, hx⟩
              · exact Or.inl h
              · exact Or.inr (Or.inr ⟨x, hx⟩)
          · simp [Knob.on_event_body, hw, hin]
    | ButtonPressed click_kind =>
      cases cursor with
      | none => simp [Knob.on_event_body]
      | some position =>
        by_cases hin : bounds.contains position
        · cases click_kind with
          | Single => simp [Knob.on_event_body, hin]
          | Double =>
            by_cases hv : k.normal_param.value = k.normal_param.default <;>
              simp [Knob.on_event_body, hin, hv]
          | Triple =>
            by_cases hv : k.normal_param.value = k.normal_param.default <;>
              simp [Knob.on_event_body, hin, hv]
        · simp [Knob.on_event_body, hin]
    | ButtonReleased =>
      rcases hds : st'.dragging_status with _ | sl <;>
        simp [Knob.on_event_body, hds]
    | ModifiersChanged m => simp [Knob.on_event_body]
    | Other => simp [Knob.on_event_body]
  unfold Knob.on_event
  exact body _

/-- C1: over any sequence of events, the knob's value stays a valid
normalized value in `[0, 1]`, assuming the initial value and the default
are valid `Normal`s. -/
theorem claim_C1 {Style : Type} (k : Knob Style) (st : State)
    (inputs : List (Event × Option Point × Rectangle))
    (h1 : k.normal_param.value.isValid)
    (h2 : k.normal_param.default.isValid) :
    (k.on_event_seq st inputs).1.normal_param.value.isValid := by
  induction inputs generalizing k st with
  | nil => exact h1
  | cons i rest ih =>
    obtain ⟨ev, cursor, bounds⟩ := i
    unfold Knob.on_event_seq
    obtain ⟨hd, hv⟩ := on_event_frame k st ev cursor bounds
    apply ih
    · rcases hv with h | h | ⟨x, hx⟩
      · rw [h]; exact h1
      · rw [h]; exact h2
      · rw [hx]; exact set_clipped_isValid x
    · rw [hd]; exact h2

/-- C1 witness: a double-click reset followed by a wheel scroll keeps
`knob0`'s value in `[0, 1]`. -/
theorem claim_C1_witness :
    (knob0.on_event_seq state0
      [(.ButtonPressed .Double, some ⟨5, 5⟩, rect0),
        (.WheelScrolled (.Lines 0 1), some ⟨5, 5⟩, rect0)]).1.normal_param.value.isValid :=
  claim_C1 knob0 state0 _ (by norm_num [knob0, Normal.isValid])
    (by norm_num [knob0, Normal.isValid])

end IcedAudio
